import Mathlib

/-!
Verification of the restaking repository's relationship-registry operations.

The development embeds, as executable Lean definitions:
  * `process_vault_add_avs` (src/vault_program/src/add_avs.rs),
  * `process_avs_add_vault_slasher` (src/restaking_program/src/avs_add_vault_slasher.rs),
  * `SanitizedTokenAccount.sanitize` (src/sanitization/src/token_account.rs),
  * the `VaultInstruction` enum and the instruction builders (src/vault_sdk/src/lib.rs).

Pubkeys are modelled as opaque comparable keys (Nat), slots as Nat, and each
processor as a function from its account inputs and the persisted account
state to a result together with the persisted account state after execution.
Operations of the core library (relationship-list `add`/`contains`,
`save_with_realloc`) are not under src/ and are modelled from the spec, as
marked on each definition.
-/

namespace Restaking

/-- Opaque 32-byte public identity, treated as an opaque comparable key. -/
abbrev Pubkey := Nat

/-- Solana slot (the clock height passed as `added_at`). -/
abbrev Slot := Nat

/-- The error values the embedded code can return.  The first four are the
`solana_program::ProgramError` variants appearing in the source;
`capacityExceeded` renders a denied storage-growth request of
`save_with_realloc` (spec §6), and `unpackFailed` a failure of the external
SPL unpack. -/
inductive ProgramError where
  | invalidAccountData
  | invalidArgument
  | illegalOwner
  | missingRequiredSignature
  | capacityExceeded
  | unpackFailed
deriving DecidableEq

/-! ## Relationship lists

Modelled from the spec (§3, §4.1): a RelationshipEntry is
`{counterparty, added_at, removed_at : Option}`, a relationship is active iff
`removed_at` is unset, and `add` fails iff an active entry for the
counterparty exists, otherwise appends `{counterparty, added_at = now}`. -/

/-- Modelled from the spec: a RelationshipEntry of the vault's AVS list
(`{counterparty = avs, added_at = slotAdded, removed_at = slotRemoved}`). -/
structure VaultAvsEntry where
  avs : Pubkey
  slotAdded : Slot
  slotRemoved : Option Slot
deriving DecidableEq

/-- Modelled from the spec: the vault's AVS RelationshipList (entries in
insertion order). -/
structure VaultAvsList where
  entries : List VaultAvsEntry
deriving DecidableEq

/-- Modelled from the spec: `contains(counterparty)` queries only active
entries (those whose `removed_at` is unset). -/
def VaultAvsList.contains_avs (l : VaultAvsList) (key : Pubkey) : Bool :=
  l.entries.any (fun e => e.avs == key && e.slotRemoved == none)

/-- Modelled from the spec: `add(counterparty, now) -> bool` of the vault AVS
list — returns false and leaves the list unchanged if an active entry for the
counterparty already exists, otherwise appends a new entry with
`added_at = now`.  This is the `add_avs` called by `process_vault_add_avs`. -/
def VaultAvsList.add_avs (l : VaultAvsList) (key : Pubkey) (now : Slot) :
    Bool × VaultAvsList :=
  if l.contains_avs key then (false, l)
  else (true, ⟨l.entries ++ [⟨key, now, none⟩]⟩)

/-- Modelled from the spec: a RelationshipEntry of the AVS's vault list. -/
structure AvsVaultEntry where
  vault : Pubkey
  slotAdded : Slot
  slotRemoved : Option Slot
deriving DecidableEq

/-- Modelled from the spec: the AVS's vault RelationshipList. -/
structure AvsVaultList where
  entries : List AvsVaultEntry
deriving DecidableEq

/-- Modelled from the spec: `contains(counterparty)` of the AVS vault list,
querying only active entries.  This is the read-only `contains_vault` query
consulted by `process_avs_add_vault_slasher`. -/
def AvsVaultList.contains_vault (l : AvsVaultList) (key : Pubkey) : Bool :=
  l.entries.any (fun e => e.vault == key && e.slotRemoved == none)

/-- Modelled from the spec (§3 SlasherCap): the record created by
`add_slasher`, keyed by the (vault, slasher) pair, carrying
`max_slashable_per_epoch`. -/
structure AvsSlasherEntry where
  vault : Pubkey
  slasher : Pubkey
  slotAdded : Slot
  maxSlashablePerEpoch : Nat
deriving DecidableEq

/-- Modelled from the spec: the AVS's slasher list of SlasherCap records. -/
structure AvsSlasherList where
  entries : List AvsSlasherEntry
deriving DecidableEq

/-- Modelled from the spec: whether a SlasherCap already exists for the
(vault, slasher) pair. -/
def AvsSlasherList.contains_slasher (l : AvsSlasherList) (vault slasher : Pubkey) :
    Bool :=
  l.entries.any (fun e => e.vault == vault && e.slasher == slasher)

/-- Modelled from the spec (§4.3): `add_slasher(vault, slasher, now, max)` —
returns false and leaves the list unchanged if a SlasherCap already exists for
(vault, slasher), otherwise appends the cap record. -/
def AvsSlasherList.add_slasher (l : AvsSlasherList) (vault slasher : Pubkey)
    (now : Slot) (maxSlashablePerEpoch : Nat) : Bool × AvsSlasherList :=
  if l.contains_slasher vault slasher then (false, l)
  else (true, ⟨l.entries ++ [⟨vault, slasher, now, maxSlashablePerEpoch⟩]⟩)

/-! ## Account sanitization (external collaborator)

Account-shape validation is outside the source under src/ (spec §1 treats it
as an external collaborator), so it is modelled at its boundary: signer
accounts carry their key and their signer/writable flags, and structured
accounts carry a boolean recording whether their shape check passes. -/

/-- An account passed to a processor: its key and its signer/writable flags. -/
structure SignerAccount where
  key : Pubkey
  isSigner : Bool
  isWritable : Bool
deriving DecidableEq

/-- Modelled from the spec: `SanitizedSignerAccount::sanitize(account,
expect_writable)` — the account must be a transaction signer, and writable
when the processor requires it. -/
def sanitize_signer (a : SignerAccount) (expectWritable : Bool) : Bool :=
  a.isSigner && (!expectWritable || a.isWritable)

/-! ## process_vault_add_avs (src/vault_program/src/add_avs.rs) -/

/-- The persisted state `process_vault_add_avs` can touch: the vault AVS list
account's data and the number of entries its current allocation can hold. -/
structure VaultAvsListState where
  list : VaultAvsList
  capacity : Nat
deriving DecidableEq

/-- The account inputs of `process_vault_add_avs`, in the order the processor
reads them, together with the clock slot and the storage-growth collaborator's
answer.  The `...SanitizeOk` fields record the outcomes of the external
shape checks (`SanitizedVault`, `SanitizedConfig`, `SanitizedVaultAvsList`,
`SanitizedSystemProgram`); `config_restaking_program_signer` is the
`restaking_program_signer()` field read from the config account. -/
structure VaultAddAvsAccounts where
  restaking_program_signer : SignerAccount
  avs : SignerAccount
  vaultKey : Pubkey
  vaultSanitizeOk : Bool
  config_restaking_program_signer : Pubkey
  configSanitizeOk : Bool
  vaultAvsListSanitizeOk : Bool
  payer : SignerAccount
  systemProgramOk : Bool
  slot : Slot
  growthGranted : Bool
deriving DecidableEq

/-- Modelled from the spec (§6 storage-growth provider):
`save_with_realloc(rent, payer)` — persists the in-memory list; if the list no
longer fits the current allocation it requests growth from the external
provider (realloc funded by the payer), and a denied request fails the
operation with `capacityExceeded`, leaving the persisted state unchanged. -/
def save_with_realloc (l : VaultAvsList) (growthGranted : Bool)
    (st : VaultAvsListState) : Except ProgramError Unit × VaultAvsListState :=
  if l.entries.length ≤ st.capacity then (Except.ok (), ⟨l, st.capacity⟩)
  else if growthGranted then (Except.ok (), ⟨l, l.entries.length⟩)
  else (Except.error ProgramError.capacityExceeded, st)

/-- `process_vault_add_avs` (src/vault_program/src/add_avs.rs): sanitizes the
seven accounts in order, asserts that the config's restaking program signer
matches the provided signer account (`ProgramError::InvalidAccountData`),
reads the clock, asserts that `add_avs(avs, clock.slot)` succeeds
(`ProgramError::InvalidArgument`, "AVS already added to vault"), and persists
the list with `save_with_realloc`.  The returned state is the persisted
account data after the call. -/
def process_vault_add_avs (a : VaultAddAvsAccounts) (st : VaultAvsListState) :
    Except ProgramError Unit × VaultAvsListState :=
  if sanitize_signer a.restaking_program_signer false = false then
    (Except.error ProgramError.missingRequiredSignature, st)
  else if sanitize_signer a.avs false = false then
    (Except.error ProgramError.missingRequiredSignature, st)
  else if a.vaultSanitizeOk = false then
    (Except.error ProgramError.invalidAccountData, st)
  else if a.configSanitizeOk = false then
    (Except.error ProgramError.invalidAccountData, st)
  else if a.vaultAvsListSanitizeOk = false then
    (Except.error ProgramError.invalidAccountData, st)
  else if sanitize_signer a.payer true = false then
    (Except.error ProgramError.missingRequiredSignature, st)
  else if a.systemProgramOk = false then
    (Except.error ProgramError.invalidAccountData, st)
  else if a.config_restaking_program_signer ≠ a.restaking_program_signer.key then
    (Except.error ProgramError.invalidAccountData, st)
  else if (st.list.add_avs a.avs.key a.slot).fst = false then
    (Except.error ProgramError.invalidArgument, st)
  else
    save_with_realloc (st.list.add_avs a.avs.key a.slot).snd a.growthGranted st

/-! ## process_avs_add_vault_slasher
(src/restaking_program/src/avs_add_vault_slasher.rs) -/

/-- The account state `process_avs_add_vault_slasher` can observe or touch:
the AVS vault list it consults read-only, and the AVS slasher list account it
owns together with its allocation capacity. -/
structure AvsAddSlasherState where
  avsVaultList : AvsVaultList
  slasherList : AvsSlasherList
  slasherCapacity : Nat
deriving DecidableEq

/-- The account inputs of `process_avs_add_vault_slasher`, in the order the
processor reads them: config, AVS (whose stored admin key is `avsAdmin`), the
two list accounts' shape checks, the raw vault and slasher accounts, the
admin and payer signer accounts, the system program, plus the clock slot and
the storage-growth collaborator's answer. -/
structure AvsAddSlasherAccounts where
  configSanitizeOk : Bool
  avsSanitizeOk : Bool
  avsAdmin : Pubkey
  avsVaultListSanitizeOk : Bool
  avsSlasherListSanitizeOk : Bool
  vaultKey : Pubkey
  slasherKey : Pubkey
  admin : SignerAccount
  payer : SignerAccount
  systemProgramOk : Bool
  slot : Slot
  growthGranted : Bool
deriving DecidableEq

/-- Modelled from the spec (§6 storage-growth provider): `save_with_realloc`
of the AVS slasher list; a denied growth request fails with
`capacityExceeded` and leaves the persisted state unchanged.  The AVS vault
list is not written. -/
def save_slasher_with_realloc (l : AvsSlasherList) (growthGranted : Bool)
    (st : AvsAddSlasherState) : Except ProgramError Unit × AvsAddSlasherState :=
  if l.entries.length ≤ st.slasherCapacity then
    (Except.ok (), ⟨st.avsVaultList, l, st.slasherCapacity⟩)
  else if growthGranted then
    (Except.ok (), ⟨st.avsVaultList, l, l.entries.length⟩)
  else (Except.error ProgramError.capacityExceeded, st)

/-- `process_avs_add_vault_slasher`
(src/restaking_program/src/avs_add_vault_slasher.rs): sanitizes the nine
accounts in order, asserts the provided admin is the AVS admin
(`ProgramError::InvalidAccountData`), asserts the vault is contained in the
AVS vault list (`ProgramError::InvalidAccountData`), reads the clock, asserts
`add_slasher(vault, slasher, clock.slot, max_slashable_per_epoch)` succeeds
(`ProgramError::InvalidAccountData`, "Slasher, vault combination already
exists"), and persists the slasher list with `save_with_realloc`. -/
def process_avs_add_vault_slasher (a : AvsAddSlasherAccounts)
    (maxSlashablePerEpoch : Nat) (st : AvsAddSlasherState) :
    Except ProgramError Unit × AvsAddSlasherState :=
  if a.configSanitizeOk = false then
    (Except.error ProgramError.invalidAccountData, st)
  else if a.avsSanitizeOk = false then
    (Except.error ProgramError.invalidAccountData, st)
  else if a.avsVaultListSanitizeOk = false then
    (Except.error ProgramError.invalidAccountData, st)
  else if a.avsSlasherListSanitizeOk = false then
    (Except.error ProgramError.invalidAccountData, st)
  else if sanitize_signer a.admin false = false then
    (Except.error ProgramError.missingRequiredSignature, st)
  else if sanitize_signer a.payer true = false then
    (Except.error ProgramError.missingRequiredSignature, st)
  else if a.systemProgramOk = false then
    (Except.error ProgramError.invalidAccountData, st)
  else if a.avsAdmin ≠ a.admin.key then
    (Except.error ProgramError.invalidAccountData, st)
  else if st.avsVaultList.contains_vault a.vaultKey = false then
    (Except.error ProgramError.invalidAccountData, st)
  else if (st.slasherList.add_slasher a.vaultKey a.slasherKey a.slot
      maxSlashablePerEpoch).fst = false then
    (Except.error ProgramError.invalidAccountData, st)
  else
    save_slasher_with_realloc
      (st.slasherList.add_slasher a.vaultKey a.slasherKey a.slot
        maxSlashablePerEpoch).snd
      a.growthGranted st

/-! ## SanitizedTokenAccount (src/sanitization/src/token_account.rs) -/

/-- The distinguished identity of the SPL token program (`spl_token::id()`),
an opaque constant key. -/
def spl_token_id : Pubkey := 900100

/-- The distinguished identity of the system program
(`system_program::id()`), an opaque constant key. -/
def system_program_id : Pubkey := 900200

/-- `spl_token::state::Account::LEN`, the packed length of an SPL token
account (165 bytes). -/
def ACCOUNT_LEN : Nat := 165

/-- The fields of an unpacked SPL token account the sanitizer inspects. -/
structure SplAccount where
  mint : Pubkey
  owner : Pubkey
  amount : Nat
deriving DecidableEq

/-- The raw account the sanitizer receives: its key, its owning program, and
its data (length and bytes). -/
structure TokenAccountInfo where
  key : Pubkey
  ownerProgram : Pubkey
  dataLen : Nat
  data : List Nat
deriving DecidableEq

/-- `SanitizedTokenAccount::sanitize` (src/sanitization/src/token_account.rs):
checks the data length against `Account::LEN` (`InvalidAccountData`), checks
the owning program is the SPL token program (`IllegalOwner`), unpacks the data
via the external `Account::unpack` (here a parameter, propagating its error),
then checks the unpacked mint and owner against the expected ones
(`InvalidAccountData` each), returning the unpacked account on success. -/
def sanitize_token_account (unpack : List Nat → Except ProgramError SplAccount)
    (account : TokenAccountInfo) (mint owner : Pubkey) :
    Except ProgramError SplAccount :=
  if account.dataLen ≠ ACCOUNT_LEN then
    Except.error ProgramError.invalidAccountData
  else if account.ownerProgram ≠ spl_token_id then
    Except.error ProgramError.illegalOwner
  else
    match unpack account.data with
    | Except.error e => Except.error e
    | Except.ok tok =>
      if tok.mint ≠ mint then Except.error ProgramError.invalidAccountData
      else if tok.owner ≠ owner then Except.error ProgramError.invalidAccountData
      else Except.ok tok

/-! ## Vault SDK (src/vault_sdk/src/lib.rs) -/

/-- `solana_program::instruction::AccountMeta`. -/
structure AccountMeta where
  pubkey : Pubkey
  isSigner : Bool
  isWritable : Bool
deriving DecidableEq

/-- `AccountMeta::new(pubkey, is_signer)`: a writable account meta. -/
def AccountMeta.new (pubkey : Pubkey) (isSigner : Bool) : AccountMeta :=
  ⟨pubkey, isSigner, true⟩

/-- `AccountMeta::new_readonly(pubkey, is_signer)`: a readonly account meta. -/
def AccountMeta.new_readonly (pubkey : Pubkey) (isSigner : Bool) : AccountMeta :=
  ⟨pubkey, isSigner, false⟩

/-- `solana_program::instruction::Instruction`: program id, account metas,
and the instruction data bytes. -/
structure Instruction where
  program_id : Pubkey
  accounts : List AccountMeta
  data : List Nat
deriving DecidableEq

/-- Little-endian bytes of a u16 value. -/
def u16le (n : Nat) : List Nat :=
  [n % 256, n / 256 % 256]

/-- Little-endian bytes of a u32 value. -/
def u32le (n : Nat) : List Nat :=
  [n % 256, n / 256 % 256, n / 256 ^ 2 % 256, n / 256 ^ 3 % 256]

/-- Little-endian bytes of a u64 value. -/
def u64le (n : Nat) : List Nat :=
  [n % 256, n / 256 % 256, n / 256 ^ 2 % 256, n / 256 ^ 3 % 256,
    n / 256 ^ 4 % 256, n / 256 ^ 5 % 256, n / 256 ^ 6 % 256, n / 256 ^ 7 % 256]

/-- Borsh serialization of a string: u32 byte length followed by the UTF-8
bytes. -/
def borsh_string (s : String) : List Nat :=
  u32le s.utf8ByteSize ++ s.toUTF8.toList.map (fun b => b.toNat)

/-- The `VaultInstruction` enum (src/vault_sdk/src/lib.rs), in declaration
order; fee and amount fields are u16/u64 values. -/
inductive VaultInstruction where
  | initializeConfig
  | initializeVault (deposit_fee_bps : Nat) (withdrawal_fee_bps : Nat)
  | initializeVaultWithMint
  | addAvs
  | removeAvs
  | addOperator
  | removeOperator
  | mintTo (amount : Nat)
  | burn (amount : Nat)
  | enqueueWithdrawal (amount : Nat)
  | setDepositCapacity (amount : Nat)
  | withdrawalAsset (amount : Nat)
  | setDelegationAdmin
  | setAdmin
  | addDelegation (amount : Nat)
  | removeDelegation (amount : Nat)
  | updateDelegations
  | addSlasher
  | slash (amount : Nat)
  | createTokenMetadata (name : String) (symbol : String) (uri : String)
  | updateTokenMetadata (name : String) (symbol : String) (uri : String)
deriving DecidableEq

/-- `try_to_vec` — the Borsh serialization of a `VaultInstruction`: the u8
variant index in declaration order, followed by the Borsh encoding of the
variant's fields. -/
def VaultInstruction.try_to_vec : VaultInstruction → List Nat
  | .initializeConfig => [0]
  | .initializeVault d w => [1] ++ u16le d ++ u16le w
  | .initializeVaultWithMint => [2]
  | .addAvs => [3]
  | .removeAvs => [4]
  | .addOperator => [5]
  | .removeOperator => [6]
  | .mintTo amount => [7] ++ u64le amount
  | .burn amount => [8] ++ u64le amount
  | .enqueueWithdrawal amount => [9] ++ u64le amount
  | .setDepositCapacity amount => [10] ++ u64le amount
  | .withdrawalAsset amount => [11] ++ u64le amount
  | .setDelegationAdmin => [12]
  | .setAdmin => [13]
  | .addDelegation amount => [14] ++ u64le amount
  | .removeDelegation amount => [15] ++ u64le amount
  | .updateDelegations => [16]
  | .addSlasher => [17]
  | .slash amount => [18] ++ u64le amount
  | .createTokenMetadata name symbol uri =>
    [19] ++ borsh_string name ++ borsh_string symbol ++ borsh_string uri
  | .updateTokenMetadata name symbol uri =>
    [20] ++ borsh_string name ++ borsh_string symbol ++ borsh_string uri

/-- One `#[account(index, ...)]` declaration on a `VaultInstruction` variant:
the account's declared name and its writable/signer/optional markers. -/
structure DeclaredAccount where
  name : String
  writable : Bool
  signer : Bool
  optional : Bool
deriving DecidableEq

/-- The `#[account(...)]` lists declared on the `VaultInstruction` variants
(src/vault_sdk/src/lib.rs), in index order; variants carrying no account
attributes declare the empty list. -/
def declared_accounts : VaultInstruction → List DeclaredAccount
  | .initializeConfig =>
    [⟨"config", true, false, false⟩, ⟨"admin", true, true, false⟩,
      ⟨"restaking_program_signer", false, false, false⟩,
      ⟨"restaking_program", false, false, false⟩,
      ⟨"system_program", false, false, false⟩]
  | .initializeVault _ _ =>
    [⟨"config", true, false, false⟩, ⟨"vault", true, false, false⟩,
      ⟨"vault_avs_list", true, false, false⟩,
      ⟨"vault_operator_list", true, false, false⟩,
      ⟨"vault_slasher_list", true, false, false⟩,
      ⟨"lrt_mint", true, true, false⟩, ⟨"token_mint", false, false, false⟩,
      ⟨"admin", true, true, false⟩, ⟨"base", false, true, false⟩,
      ⟨"system_program", false, false, false⟩,
      ⟨"token_program", false, false, false⟩]
  | .initializeVaultWithMint => []
  | .addAvs =>
    [⟨"restaking_program_signer", false, true, false⟩,
      ⟨"avs", false, true, false⟩, ⟨"vault", false, false, false⟩,
      ⟨"config", false, false, false⟩, ⟨"vault_avs_list", true, false, false⟩,
      ⟨"payer", true, true, false⟩, ⟨"system_program", false, false, false⟩]
  | .removeAvs =>
    [⟨"restaking_program_signer", false, true, false⟩,
      ⟨"avs", false, true, false⟩, ⟨"vault", false, false, false⟩,
      ⟨"config", false, false, false⟩, ⟨"vault_avs_list", true, false, false⟩]
  | .addOperator =>
    [⟨"restaking_program_signer", false, true, false⟩,
      ⟨"operator", false, true, false⟩, ⟨"vault", false, false, false⟩,
      ⟨"config", false, false, false⟩,
      ⟨"vault_operator_list", true, false, false⟩, ⟨"payer", true, true, false⟩,
      ⟨"system_program", false, false, false⟩]
  | .removeOperator =>
    [⟨"restaking_program_signer", false, true, false⟩,
      ⟨"operator", false, true, false⟩, ⟨"vault", false, false, false⟩,
      ⟨"config", false, false, false⟩,
      ⟨"vault_operator_list", true, false, false⟩, ⟨"payer", true, true, false⟩,
      ⟨"system_program", false, false, false⟩]
  | .mintTo _ =>
    [⟨"vault", true, false, false⟩, ⟨"lrt_mint", true, false, false⟩,
      ⟨"source_owner", true, true, false⟩,
      ⟨"source_token_account", true, false, false⟩,
      ⟨"dest_token_account", true, false, false⟩,
      ⟨"lrt_receiver", true, false, false⟩,
      ⟨"token_program", false, false, false⟩,
      ⟨"mint_signer", false, true, true⟩]
  | .burn _ => []
  | .enqueueWithdrawal _ => []
  | .setDepositCapacity _ =>
    [⟨"vault", true, false, false⟩, ⟨"admin", false, true, false⟩]
  | .withdrawalAsset _ => []
  | .setDelegationAdmin =>
    [⟨"vault", true, false, false⟩, ⟨"admin", false, true, false⟩,
      ⟨"new_admin", false, true, false⟩]
  | .setAdmin =>
    [⟨"vault", true, false, false⟩, ⟨"old_admin", false, true, false⟩,
      ⟨"old_admin", false, true, false⟩]
  | .addDelegation _ =>
    [⟨"config", false, false, false⟩, ⟨"vault", false, false, false⟩,
      ⟨"vault_operator_list", true, false, false⟩,
      ⟨"operator", false, false, false⟩,
      ⟨"delegation_admin", false, true, false⟩, ⟨"payer", true, true, false⟩]
  | .removeDelegation _ =>
    [⟨"config", false, false, false⟩, ⟨"vault", false, false, false⟩,
      ⟨"vault_operator_list", true, false, false⟩,
      ⟨"operator", false, false, false⟩, ⟨"admin", false, true, false⟩,
      ⟨"payer", true, true, false⟩]
  | .updateDelegations =>
    [⟨"config", false, false, false⟩, ⟨"vault", false, false, false⟩,
      ⟨"vault_operator_list", true, false, false⟩, ⟨"payer", true, true, false⟩]
  | .addSlasher =>
    [⟨"config", false, false, false⟩, ⟨"vault", false, false, false⟩,
      ⟨"vault_slasher_list", true, false, false⟩,
      ⟨"slasher", false, false, false⟩, ⟨"admin", false, true, false⟩,
      ⟨"payer", true, true, false⟩, ⟨"avs", false, false, false⟩,
      ⟨"avs_slasher_list", false, false, false⟩]
  | .slash _ =>
    [⟨"config", false, false, false⟩, ⟨"vault", true, false, false⟩,
      ⟨"vault_slasher_list", false, false, false⟩,
      ⟨"vault_operator_list", true, false, false⟩,
      ⟨"vault_token_account", true, false, false⟩, ⟨"avs", false, false, false⟩,
      ⟨"avs_operator_list", false, false, false⟩,
      ⟨"operator", false, false, false⟩, ⟨"slasher", false, true, false⟩,
      ⟨"slasher_token_account", false, false, false⟩,
      ⟨"token_program", false, false, false⟩]
  | .createTokenMetadata _ _ _ => []
  | .updateTokenMetadata _ _ _ => []

/-- The (writable, signer) flags of an account meta. -/
def meta_flags (m : AccountMeta) : Bool × Bool :=
  (m.isWritable, m.isSigner)

/-- The (writable, signer) flags of the non-optional declared accounts of a
variant, in index order. -/
def required_declared (i : VaultInstruction) : List (Bool × Bool) :=
  ((declared_accounts i).filter (fun d => !d.optional)).map
    (fun d => (d.writable, d.signer))

/-- The builder's instruction matches the declaration on the variant: same
program-independent account count, order, writability and signer flags as the
variant's non-optional declared accounts. -/
def metas_match (ins : Instruction) (i : VaultInstruction) : Prop :=
  ins.accounts.map meta_flags = required_declared i

/-- `initialize_config` (src/vault_sdk/src/lib.rs). -/
def initialize_config (program_id config admin restaking_program_signer
    restaking_program : Pubkey) : Instruction :=
  ⟨program_id,
    [AccountMeta.new config false, AccountMeta.new admin true,
      AccountMeta.new restaking_program_signer false,
      AccountMeta.new_readonly restaking_program false,
      AccountMeta.new_readonly system_program_id false],
    VaultInstruction.initializeConfig.try_to_vec⟩

/-- `initialize_vault` (src/vault_sdk/src/lib.rs). -/
def initialize_vault (program_id config vault vault_avs_list
    vault_operator_list vault_slasher_list lrt_mint token_mint admin
    base : Pubkey) (deposit_fee_bps withdrawal_fee_bps : Nat) : Instruction :=
  ⟨program_id,
    [AccountMeta.new config false, AccountMeta.new vault false,
      AccountMeta.new vault_avs_list false,
      AccountMeta.new vault_operator_list false,
      AccountMeta.new vault_slasher_list false, AccountMeta.new lrt_mint true,
      AccountMeta.new token_mint false, AccountMeta.new admin true,
      AccountMeta.new base true,
      AccountMeta.new_readonly system_program_id false,
      AccountMeta.new_readonly spl_token_id false],
    (VaultInstruction.initializeVault deposit_fee_bps
      withdrawal_fee_bps).try_to_vec⟩

/-- `add_avs` (src/vault_sdk/src/lib.rs). -/
def add_avs (program_id restaking_program_signer avs vault config
    vault_avs_list payer : Pubkey) : Instruction :=
  ⟨program_id,
    [AccountMeta.new_readonly restaking_program_signer true,
      AccountMeta.new_readonly avs true, AccountMeta.new_readonly vault false,
      AccountMeta.new_readonly config false,
      AccountMeta.new vault_avs_list false, AccountMeta.new payer true,
      AccountMeta.new_readonly system_program_id false],
    VaultInstruction.addAvs.try_to_vec⟩

/-- `remove_avs` (src/vault_sdk/src/lib.rs). -/
def remove_avs (program_id restaking_program_signer avs vault config
    vault_avs_list payer : Pubkey) : Instruction :=
  ⟨program_id,
    [AccountMeta.new_readonly restaking_program_signer true,
      AccountMeta.new_readonly avs true, AccountMeta.new_readonly vault false,
      AccountMeta.new_readonly config false,
      AccountMeta.new vault_avs_list false, AccountMeta.new payer true,
      AccountMeta.new_readonly system_program_id false],
    VaultInstruction.removeAvs.try_to_vec⟩

/-- `add_operator` (src/vault_sdk/src/lib.rs). -/
def add_operator (program_id restaking_program_signer operator vault config
    vault_operator_list payer : Pubkey) : Instruction :=
  ⟨program_id,
    [AccountMeta.new_readonly restaking_program_signer true,
      AccountMeta.new_readonly operator true,
      AccountMeta.new_readonly vault false,
      AccountMeta.new_readonly config false,
      AccountMeta.new vault_operator_list false, AccountMeta.new payer true,
      AccountMeta.new_readonly system_program_id false],
    VaultInstruction.addOperator.try_to_vec⟩

/-- `remove_operator` (src/vault_sdk/src/lib.rs). -/
def remove_operator (program_id restaking_program_signer operator vault config
    vault_operator_list payer : Pubkey) : Instruction :=
  ⟨program_id,
    [AccountMeta.new_readonly restaking_program_signer true,
      AccountMeta.new_readonly operator true,
      AccountMeta.new_readonly vault false,
      AccountMeta.new_readonly config false,
      AccountMeta.new vault_operator_list false, AccountMeta.new payer true,
      AccountMeta.new_readonly system_program_id false],
    VaultInstruction.removeOperator.try_to_vec⟩

/-- `mint_to` (src/vault_sdk/src/lib.rs). -/
def mint_to (program_id vault lrt_mint source_owner source_token_account
    dest_token_account lrt_receiver : Pubkey) (amount : Nat) : Instruction :=
  ⟨program_id,
    [AccountMeta.new vault false, AccountMeta.new lrt_mint false,
      AccountMeta.new source_owner true,
      AccountMeta.new source_token_account false,
      AccountMeta.new dest_token_account false,
      AccountMeta.new lrt_receiver false,
      AccountMeta.new_readonly spl_token_id false],
    (VaultInstruction.mintTo amount).try_to_vec⟩

/-- `set_capacity` (src/vault_sdk/src/lib.rs). -/
def set_capacity (program_id vault admin : Pubkey) (amount : Nat) :
    Instruction :=
  ⟨program_id,
    [AccountMeta.new vault false, AccountMeta.new admin true],
    (VaultInstruction.setDepositCapacity amount).try_to_vec⟩

/-- `add_delegation` (src/vault_sdk/src/lib.rs). -/
def add_delegation (program_id config vault vault_operator_list operator
    delegation_admin payer : Pubkey) (amount : Nat) : Instruction :=
  ⟨program_id,
    [AccountMeta.new_readonly config false, AccountMeta.new_readonly vault false,
      AccountMeta.new vault_operator_list false,
      AccountMeta.new_readonly operator false,
      AccountMeta.new_readonly delegation_admin true,
      AccountMeta.new payer true],
    (VaultInstruction.addDelegation amount).try_to_vec⟩

/-- `remove_delegation` (src/vault_sdk/src/lib.rs). -/
def remove_delegation (program_id config vault vault_operator_list operator
    admin payer : Pubkey) (amount : Nat) : Instruction :=
  ⟨program_id,
    [AccountMeta.new_readonly config false, AccountMeta.new_readonly vault false,
      AccountMeta.new vault_operator_list false,
      AccountMeta.new_readonly operator false,
      AccountMeta.new_readonly admin true, AccountMeta.new payer true],
    (VaultInstruction.removeDelegation amount).try_to_vec⟩

/-- All account sanitization of `process_vault_add_avs` passes (the seven
account checks preceding the processor's own asserts). -/
def vault_add_avs_sanitize_ok (a : VaultAddAvsAccounts) : Bool :=
  sanitize_signer a.restaking_program_signer false && sanitize_signer a.avs false &&
    a.vaultSanitizeOk && a.configSanitizeOk && a.vaultAvsListSanitizeOk &&
    sanitize_signer a.payer true && a.systemProgramOk

/-- All account sanitization of `process_avs_add_vault_slasher` passes (the
nine account checks preceding the processor's own asserts). -/
def avs_add_slasher_sanitize_ok (a : AvsAddSlasherAccounts) : Bool :=
  a.configSanitizeOk && a.avsSanitizeOk && a.avsVaultListSanitizeOk &&
    a.avsSlasherListSanitizeOk && sanitize_signer a.admin false &&
    sanitize_signer a.payer true && a.systemProgramOk

/-- The builder produced an instruction for the given program with the Borsh
data of the given variant. -/
def builder_ok (ins : Instruction) (pid : Pubkey) (v : VaultInstruction) :
    Prop :=
  ins.program_id = pid ∧ ins.data = v.try_to_vec

/-- The first error raised by the checks of `process_vault_add_avs` that
precede the duplicate check, in the order the source performs them; `none`
when they all pass. -/
def vault_add_avs_first_error (a : VaultAddAvsAccounts) : Option ProgramError :=
  if sanitize_signer a.restaking_program_signer false = false then
    some ProgramError.missingRequiredSignature
  else if sanitize_signer a.avs false = false then
    some ProgramError.missingRequiredSignature
  else if a.vaultSanitizeOk = false then
    some ProgramError.invalidAccountData
  else if a.configSanitizeOk = false then
    some ProgramError.invalidAccountData
  else if a.vaultAvsListSanitizeOk = false then
    some ProgramError.invalidAccountData
  else if sanitize_signer a.payer true = false then
    some ProgramError.missingRequiredSignature
  else if a.systemProgramOk = false then
    some ProgramError.invalidAccountData
  else if a.config_restaking_program_signer ≠ a.restaking_program_signer.key then
    some ProgramError.invalidAccountData
  else none

/-- The first error raised by the checks of `process_avs_add_vault_slasher`
that precede the duplicate check, in the order the source performs them;
`none` when they all pass. -/
def avs_add_slasher_first_error (a : AvsAddSlasherAccounts)
    (st : AvsAddSlasherState) : Option ProgramError :=
  if a.configSanitizeOk = false then some ProgramError.invalidAccountData
  else if a.avsSanitizeOk = false then some ProgramError.invalidAccountData
  else if a.avsVaultListSanitizeOk = false then
    some ProgramError.invalidAccountData
  else if a.avsSlasherListSanitizeOk = false then
    some ProgramError.invalidAccountData
  else if sanitize_signer a.admin false = false then
    some ProgramError.missingRequiredSignature
  else if sanitize_signer a.payer true = false then
    some ProgramError.missingRequiredSignature
  else if a.systemProgramOk = false then some ProgramError.invalidAccountData
  else if a.avsAdmin ≠ a.admin.key then some ProgramError.invalidAccountData
  else if st.avsVaultList.contains_vault a.vaultKey = false then
    some ProgramError.invalidAccountData
  else none

/-! ## Helper lemmas -/

theorem add_avs_fst_false_iff (l : VaultAvsList) (k : Pubkey) (now : Slot) :
    (l.add_avs k now).fst = false ↔ l.contains_avs k = true := by
  unfold VaultAvsList.add_avs
  split <;> simp_all

theorem add_avs_snd_of_not_contains (l : VaultAvsList) (k : Pubkey) (now : Slot)
    (h : l.contains_avs k = false) :
    (l.add_avs k now).snd = ⟨l.entries ++ [⟨k, now, none⟩]⟩ := by
  unfold VaultAvsList.add_avs
  simp [h]

theorem add_slasher_fst_false_iff (l : AvsSlasherList) (v s : Pubkey)
    (now : Slot) (m : Nat) :
    (l.add_slasher v s now m).fst = false ↔ l.contains_slasher v s = true := by
  unfold AvsSlasherList.add_slasher
  split <;> simp_all

theorem add_slasher_snd_of_not_contains (l : AvsSlasherList) (v s : Pubkey)
    (now : Slot) (m : Nat) (h : l.contains_slasher v s = false) :
    (l.add_slasher v s now m).snd = ⟨l.entries ++ [⟨v, s, now, m⟩]⟩ := by
  unfold AvsSlasherList.add_slasher
  simp [h]

set_option maxHeartbeats 1600000 in
theorem process_vault_add_avs_eq (a : VaultAddAvsAccounts)
    (st : VaultAvsListState) :
    process_vault_add_avs a st =
      match vault_add_avs_first_error a with
      | some e => (Except.error e, st)
      | none =>
        if st.list.contains_avs a.avs.key = true then
          (Except.error ProgramError.invalidArgument, st)
        else
          save_with_realloc ⟨st.list.entries ++ [⟨a.avs.key, a.slot, none⟩]⟩
            a.growthGranted st := by
  unfold process_vault_add_avs vault_add_avs_first_error
  simp only [add_avs_fst_false_iff]
  split_ifs
  any_goals rfl
  have hc : st.list.contains_avs a.avs.key = false := by simp_all
  rw [add_avs_snd_of_not_contains _ _ _ hc]

set_option maxHeartbeats 1600000 in
theorem process_avs_add_vault_slasher_eq (a : AvsAddSlasherAccounts)
    (m : Nat) (st : AvsAddSlasherState) :
    process_avs_add_vault_slasher a m st =
      match avs_add_slasher_first_error a st with
      | some e => (Except.error e, st)
      | none =>
        if st.slasherList.contains_slasher a.vaultKey a.slasherKey = true then
          (Except.error ProgramError.invalidAccountData, st)
        else
          save_slasher_with_realloc
            ⟨st.slasherList.entries ++ [⟨a.vaultKey, a.slasherKey, a.slot, m⟩]⟩
            a.growthGranted st := by
  unfold process_avs_add_vault_slasher avs_add_slasher_first_error
  simp only [add_slasher_fst_false_iff]
  split_ifs
  any_goals rfl
  have hc : st.slasherList.contains_slasher a.vaultKey a.slasherKey = false := by
    simp_all
  rw [add_slasher_snd_of_not_contains _ _ _ _ _ hc]

theorem process_vault_add_avs_eq_err (a : VaultAddAvsAccounts)
    (st : VaultAvsListState) (e : ProgramError)
    (hfe : vault_add_avs_first_error a = some e) :
    process_vault_add_avs a st = (Except.error e, st) := by
  rw [process_vault_add_avs_eq, hfe]

theorem process_vault_add_avs_eq_checks (a : VaultAddAvsAccounts)
    (st : VaultAvsListState) (hfe : vault_add_avs_first_error a = none) :
    process_vault_add_avs a st =
      if st.list.contains_avs a.avs.key = true then
        (Except.error ProgramError.invalidArgument, st)
      else
        save_with_realloc ⟨st.list.entries ++ [⟨a.avs.key, a.slot, none⟩]⟩
          a.growthGranted st := by
  rw [process_vault_add_avs_eq, hfe]

theorem process_avs_add_vault_slasher_eq_err (a : AvsAddSlasherAccounts)
    (m : Nat) (st : AvsAddSlasherState) (e : ProgramError)
    (hfe : avs_add_slasher_first_error a st = some e) :
    process_avs_add_vault_slasher a m st = (Except.error e, st) := by
  rw [process_avs_add_vault_slasher_eq, hfe]

theorem process_avs_add_vault_slasher_eq_checks (a : AvsAddSlasherAccounts)
    (m : Nat) (st : AvsAddSlasherState)
    (hfe : avs_add_slasher_first_error a st = none) :
    process_avs_add_vault_slasher a m st =
      if st.slasherList.contains_slasher a.vaultKey a.slasherKey = true then
        (Except.error ProgramError.invalidAccountData, st)
      else
        save_slasher_with_realloc
          ⟨st.slasherList.entries ++ [⟨a.vaultKey, a.slasherKey, a.slot, m⟩]⟩
          a.growthGranted st := by
  rw [process_avs_add_vault_slasher_eq, hfe]

set_option maxHeartbeats 800000 in
theorem vault_fe_none_iff (a : VaultAddAvsAccounts) :
    vault_add_avs_first_error a = none ↔
      (vault_add_avs_sanitize_ok a = true ∧
        a.config_restaking_program_signer = a.restaking_program_signer.key) := by
  unfold vault_add_avs_first_error vault_add_avs_sanitize_ok
  split_ifs with h1 h2 h3 h4 h5 h6 h7 h8
  all_goals simp_all

set_option maxHeartbeats 800000 in
theorem slasher_fe_none_iff (a : AvsAddSlasherAccounts)
    (st : AvsAddSlasherState) :
    avs_add_slasher_first_error a st = none ↔
      (avs_add_slasher_sanitize_ok a = true ∧ a.avsAdmin = a.admin.key ∧
        st.avsVaultList.contains_vault a.vaultKey = true) := by
  unfold avs_add_slasher_first_error avs_add_slasher_sanitize_ok
  split_ifs with h1 h2 h3 h4 h5 h6 h7 h8 h9
  all_goals simp_all

theorem save_with_realloc_err_frame (l : VaultAvsList) (g : Bool)
    (st : VaultAvsListState) (e : ProgramError)
    (h : (save_with_realloc l g st).fst = Except.error e) :
    (save_with_realloc l g st).snd = st := by
  unfold save_with_realloc at h ⊢
  split_ifs at h ⊢ <;> simp_all

theorem save_with_realloc_ok_list (l : VaultAvsList) (g : Bool)
    (st : VaultAvsListState)
    (h : (save_with_realloc l g st).fst = Except.ok ()) :
    ((save_with_realloc l g st).snd).list = l := by
  unfold save_with_realloc at h ⊢
  split_ifs at h ⊢ <;> simp_all

theorem save_with_realloc_denied (l : VaultAvsList) (st : VaultAvsListState)
    (hlen : st.capacity < l.entries.length) :
    save_with_realloc l false st =
      (Except.error ProgramError.capacityExceeded, st) := by
  unfold save_with_realloc
  rw [if_neg (Nat.not_le.mpr hlen)]
  rfl

theorem save_slasher_err_frame (l : AvsSlasherList) (g : Bool)
    (st : AvsAddSlasherState) (e : ProgramError)
    (h : (save_slasher_with_realloc l g st).fst = Except.error e) :
    (save_slasher_with_realloc l g st).snd = st := by
  unfold save_slasher_with_realloc at h ⊢
  split_ifs at h ⊢ <;> simp_all

theorem save_slasher_ok_list (l : AvsSlasherList) (g : Bool)
    (st : AvsAddSlasherState)
    (h : (save_slasher_with_realloc l g st).fst = Except.ok ()) :
    ((save_slasher_with_realloc l g st).snd).slasherList = l := by
  unfold save_slasher_with_realloc at h ⊢
  split_ifs at h ⊢ <;> simp_all

theorem save_slasher_vault_list (l : AvsSlasherList) (g : Bool)
    (st : AvsAddSlasherState) :
    ((save_slasher_with_realloc l g st).snd).avsVaultList = st.avsVaultList := by
  unfold save_slasher_with_realloc
  split_ifs <;> rfl

theorem save_slasher_denied (l : AvsSlasherList) (st : AvsAddSlasherState)
    (hlen : st.slasherCapacity < l.entries.length) :
    save_slasher_with_realloc l false st =
      (Except.error ProgramError.capacityExceeded, st) := by
  unfold save_slasher_with_realloc
  rw [if_neg (Nat.not_le.mpr hlen)]
  rfl

theorem vault_add_avs_err_frame (a : VaultAddAvsAccounts)
    (st : VaultAvsListState) (e : ProgramError)
    (h : (process_vault_add_avs a st).fst = Except.error e) :
    (process_vault_add_avs a st).snd = st := by
  rcases hfe : vault_add_avs_first_error a with _ | e2
  · rw [process_vault_add_avs_eq_checks a st hfe] at h ⊢
    by_cases hdup : st.list.contains_avs a.avs.key = true
    · rw [if_pos hdup]
    · rw [if_neg hdup] at h ⊢
      exact save_with_realloc_err_frame _ _ _ _ h
  · rw [process_vault_add_avs_eq_err a st e2 hfe]

theorem avs_add_slasher_err_frame (a : AvsAddSlasherAccounts) (m : Nat)
    (st : AvsAddSlasherState) (e : ProgramError)
    (h : (process_avs_add_vault_slasher a m st).fst = Except.error e) :
    (process_avs_add_vault_slasher a m st).snd = st := by
  rcases hfe : avs_add_slasher_first_error a st with _ | e2
  · rw [process_avs_add_vault_slasher_eq_checks a m st hfe] at h ⊢
    by_cases hdup :
      st.slasherList.contains_slasher a.vaultKey a.slasherKey = true
    · rw [if_pos hdup]
    · rw [if_neg hdup] at h ⊢
      exact save_slasher_err_frame _ _ _ _ h
  · rw [process_avs_add_vault_slasher_eq_err a m st e2 hfe]

theorem vault_add_avs_ok_inv (a : VaultAddAvsAccounts)
    (st : VaultAvsListState)
    (h : (process_vault_add_avs a st).fst = Except.ok ()) :
    st.list.contains_avs a.avs.key = false ∧
      ((process_vault_add_avs a st).snd).list.entries =
        st.list.entries ++ [⟨a.avs.key, a.slot, none⟩] := by
  rcases hfe : vault_add_avs_first_error a with _ | e2
  · rw [process_vault_add_avs_eq_checks a st hfe] at h ⊢
    by_cases hdup : st.list.contains_avs a.avs.key = true
    · rw [if_pos hdup] at h
      exact absurd h (by simp)
    · rw [if_neg hdup] at h ⊢
      have hl := save_with_realloc_ok_list _ _ _ h
      refine ⟨by simpa using hdup, ?_⟩
      rw [hl]
  · rw [process_vault_add_avs_eq_err a st e2 hfe] at h
    exact absurd h (by simp)

theorem avs_add_slasher_ok_inv (a : AvsAddSlasherAccounts) (m : Nat)
    (st : AvsAddSlasherState)
    (h : (process_avs_add_vault_slasher a m st).fst = Except.ok ()) :
    st.avsVaultList.contains_vault a.vaultKey = true ∧
      st.slasherList.contains_slasher a.vaultKey a.slasherKey = false ∧
      ((process_avs_add_vault_slasher a m st).snd).slasherList.entries =
        st.slasherList.entries ++ [⟨a.vaultKey, a.slasherKey, a.slot, m⟩] := by
  rcases hfe : avs_add_slasher_first_error a st with _ | e2
  · rw [process_avs_add_vault_slasher_eq_checks a m st hfe] at h ⊢
    by_cases hdup :
      st.slasherList.contains_slasher a.vaultKey a.slasherKey = true
    · rw [if_pos hdup] at h
      exact absurd h (by simp)
    · rw [if_neg hdup] at h ⊢
      have hv := ((slasher_fe_none_iff a st).mp hfe).2.2
      have hl := save_slasher_ok_list _ _ _ h
      refine ⟨hv, by simpa using hdup, ?_⟩
      rw [hl]
  · rw [process_avs_add_vault_slasher_eq_err a m st e2 hfe] at h
    exact absurd h (by simp)

set_option maxHeartbeats 800000 in
theorem vault_fe_mismatch (a : VaultAddAvsAccounts)
    (hok : vault_add_avs_sanitize_ok a = true)
    (hne : a.config_restaking_program_signer ≠ a.restaking_program_signer.key) :
    vault_add_avs_first_error a = some ProgramError.invalidAccountData := by
  unfold vault_add_avs_first_error
  unfold vault_add_avs_sanitize_ok at hok
  split_ifs
  all_goals simp_all

set_option maxHeartbeats 800000 in
theorem slasher_fe_admin_mismatch (a : AvsAddSlasherAccounts)
    (st : AvsAddSlasherState) (hok : avs_add_slasher_sanitize_ok a = true)
    (hne : a.avsAdmin ≠ a.admin.key) :
    avs_add_slasher_first_error a st = some ProgramError.invalidAccountData := by
  unfold avs_add_slasher_first_error
  unfold avs_add_slasher_sanitize_ok at hok
  split_ifs
  all_goals simp_all

/-! ## Claims -/

/-- Claim C1: adding a counterparty that already has an active entry in the
relationship list fails — `process_vault_add_avs` returns an error whenever
the vault's AVS list reports the AVS already present, and
`process_avs_add_vault_slasher` returns an error whenever the
(vault, slasher) combination already exists in the AVS slasher list; in both
cases the operation does not succeed and the persisted state is unchanged. -/
theorem claim_C1_duplicate_add_fails :
    (∀ (a : VaultAddAvsAccounts) (st : VaultAvsListState),
      st.list.contains_avs a.avs.key = true →
      (∃ e, (process_vault_add_avs a st).fst = Except.error e) ∧
        (process_vault_add_avs a st).snd = st) ∧
    (∀ (a : AvsAddSlasherAccounts) (m : Nat) (st : AvsAddSlasherState),
      st.slasherList.contains_slasher a.vaultKey a.slasherKey = true →
      (∃ e, (process_avs_add_vault_slasher a m st).fst = Except.error e) ∧
        (process_avs_add_vault_slasher a m st).snd = st) := by
  constructor
  · intro a st hdup
    have herr : ∃ e, (process_vault_add_avs a st).fst = Except.error e := by
      rcases hfe : vault_add_avs_first_error a with _ | e2
      · rw [process_vault_add_avs_eq_checks a st hfe, if_pos hdup]
        exact ⟨_, rfl⟩
      · rw [process_vault_add_avs_eq_err a st e2 hfe]
        exact ⟨e2, rfl⟩
    obtain ⟨e, he⟩ := herr
    exact ⟨⟨e, he⟩, vault_add_avs_err_frame a st e he⟩
  · intro a m st hdup
    have herr : ∃ e,
        (process_avs_add_vault_slasher a m st).fst = Except.error e := by
      rcases hfe : avs_add_slasher_first_error a st with _ | e2
      · rw [process_avs_add_vault_slasher_eq_checks a m st hfe, if_pos hdup]
        exact ⟨_, rfl⟩
      · rw [process_avs_add_vault_slasher_eq_err a m st e2 hfe]
        exact ⟨e2, rfl⟩
    obtain ⟨e, he⟩ := herr
    exact ⟨⟨e, he⟩, avs_add_slasher_err_frame a m st e he⟩

/-- Witness for C1 at a concrete duplicate: the vault AVS list already holds
an active entry for AVS 5, so the add leaves the persisted state unchanged. -/
theorem claim_C1_witness :
    (process_vault_add_avs
        ⟨⟨1, true, false⟩, ⟨5, true, false⟩, 2, true, 1, true, true,
          ⟨6, true, true⟩, true, 10, true⟩
        ⟨⟨[⟨5, 3, none⟩]⟩, 1⟩).snd = ⟨⟨[⟨5, 3, none⟩]⟩, 1⟩ :=
  (claim_C1_duplicate_add_fails.1
    ⟨⟨1, true, false⟩, ⟨5, true, false⟩, 2, true, 1, true, true,
      ⟨6, true, true⟩, true, 10, true⟩
    ⟨⟨[⟨5, 3, none⟩]⟩, 1⟩ (by decide)).2

/-- Claim C2: `process_avs_add_vault_slasher` succeeds — creating the cap
record with the given `max_slashable_per_epoch` — only if the vault is
contained in the AVS vault list and no SlasherCap already exists for the
(vault, slasher) pair; if either precondition fails it returns an error. -/
theorem claim_C2_add_slasher_preconditions :
    ∀ (a : AvsAddSlasherAccounts) (m : Nat) (st : AvsAddSlasherState),
      ((process_avs_add_vault_slasher a m st).fst = Except.ok () →
        st.avsVaultList.contains_vault a.vaultKey = true ∧
          st.slasherList.contains_slasher a.vaultKey a.slasherKey = false ∧
          ((process_avs_add_vault_slasher a m st).snd).slasherList.entries =
            st.slasherList.entries ++
              [⟨a.vaultKey, a.slasherKey, a.slot, m⟩]) ∧
      ((st.avsVaultList.contains_vault a.vaultKey = false ∨
          st.slasherList.contains_slasher a.vaultKey a.slasherKey = true) →
        ∃ e, (process_avs_add_vault_slasher a m st).fst = Except.error e) := by
  intro a m st
  refine ⟨fun h => avs_add_slasher_ok_inv a m st h, fun hpre => ?_⟩
  rcases hfe : avs_add_slasher_first_error a st with _ | e2
  · rcases hpre with hv | hdup
    · have hv2 := ((slasher_fe_none_iff a st).mp hfe).2.2
      rw [hv] at hv2
      exact absurd hv2 (by simp)
    · rw [process_avs_add_vault_slasher_eq_checks a m st hfe, if_pos hdup]
      exact ⟨_, rfl⟩
  · rw [process_avs_add_vault_slasher_eq_err a m st e2 hfe]
    exact ⟨e2, rfl⟩

/-- Witness for C2 at a concrete successful add: vault 7 is in the AVS vault
list, no cap exists for (7, 9), and the call appends the cap record carrying
slot 11 and cap 4. -/
theorem claim_C2_witness :
    ((process_avs_add_vault_slasher
        ⟨true, true, 5, true, true, 7, 9, ⟨5, true, false⟩, ⟨6, true, true⟩,
          true, 11, true⟩ 4
        ⟨⟨[⟨7, 0, none⟩]⟩, ⟨[]⟩, 1⟩).snd).slasherList.entries =
      [⟨7, 9, 11, 4⟩] :=
  ((claim_C2_add_slasher_preconditions
    ⟨true, true, 5, true, true, 7, 9, ⟨5, true, false⟩, ⟨6, true, true⟩,
      true, 11, true⟩ 4
    ⟨⟨[⟨7, 0, none⟩]⟩, ⟨[]⟩, 1⟩).1 rfl).2.2

/-- Claim C3: every operation is all-or-nothing — whenever
`process_vault_add_avs` or `process_avs_add_vault_slasher` returns an error,
the persisted account state (relationship lists, cap records, capacities) is
exactly the input state; nothing is written before all precondition checks
have passed. -/
theorem claim_C3_all_or_nothing :
    (∀ (a : VaultAddAvsAccounts) (st : VaultAvsListState) (e : ProgramError),
      (process_vault_add_avs a st).fst = Except.error e →
      (process_vault_add_avs a st).snd = st) ∧
    (∀ (a : AvsAddSlasherAccounts) (m : Nat) (st : AvsAddSlasherState)
      (e : ProgramError),
      (process_avs_add_vault_slasher a m st).fst = Except.error e →
      (process_avs_add_vault_slasher a m st).snd = st) :=
  ⟨vault_add_avs_err_frame, avs_add_slasher_err_frame⟩

/-- Witness for C3 at a concrete failing input: the AVS account is not a
signer, the call errors, and the persisted state is unchanged. -/
theorem claim_C3_witness :
    (process_vault_add_avs
        ⟨⟨1, true, false⟩, ⟨5, false, false⟩, 2, true, 1, true, true,
          ⟨6, true, true⟩, true, 10, true⟩
        ⟨⟨[]⟩, 1⟩).snd = ⟨⟨[]⟩, 1⟩ :=
  claim_C3_all_or_nothing.1
    ⟨⟨1, true, false⟩, ⟨5, false, false⟩, 2, true, 1, true, true,
      ⟨6, true, true⟩, true, 10, true⟩
    ⟨⟨[]⟩, 1⟩ ProgramError.missingRequiredSignature rfl

/-- Claim C4: authorization-sensitive operations fail when the required
authorization fact is false — if the provided admin key differs from the
AVS's stored admin, `process_avs_add_vault_slasher` fails without mutating
any list, and if the provided restaking-program-signer key differs from the
one stored in the config, `process_vault_add_avs` fails without mutating any
list.  (The source surfaces both failures as
`ProgramError::InvalidAccountData`, its rendering of `UnauthorizedCaller`.) -/
theorem claim_C4_unauthorized_fails :
    (∀ (a : AvsAddSlasherAccounts) (m : Nat) (st : AvsAddSlasherState),
      a.avsAdmin ≠ a.admin.key →
      (∃ e, (process_avs_add_vault_slasher a m st).fst = Except.error e) ∧
        (process_avs_add_vault_slasher a m st).snd = st) ∧
    (∀ (a : VaultAddAvsAccounts) (st : VaultAvsListState),
      a.config_restaking_program_signer ≠ a.restaking_program_signer.key →
      (∃ e, (process_vault_add_avs a st).fst = Except.error e) ∧
        (process_vault_add_avs a st).snd = st) := by
  constructor
  · intro a m st hne
    have herr : ∃ e,
        (process_avs_add_vault_slasher a m st).fst = Except.error e := by
      rcases hfe : avs_add_slasher_first_error a st with _ | e2
      · exact absurd ((slasher_fe_none_iff a st).mp hfe).2.1 hne
      · rw [process_avs_add_vault_slasher_eq_err a m st e2 hfe]
        exact ⟨e2, rfl⟩
    obtain ⟨e, he⟩ := herr
    exact ⟨⟨e, he⟩, avs_add_slasher_err_frame a m st e he⟩
  · intro a st hne
    have herr : ∃ e, (process_vault_add_avs a st).fst = Except.error e := by
      rcases hfe : vault_add_avs_first_error a with _ | e2
      · exact absurd ((vault_fe_none_iff a).mp hfe).2 hne
      · rw [process_vault_add_avs_eq_err a st e2 hfe]
        exact ⟨e2, rfl⟩
    obtain ⟨e, he⟩ := herr
    exact ⟨⟨e, he⟩, vault_add_avs_err_frame a st e he⟩

/-- Witness for C4 at a concrete input: the stored AVS admin is 7 but the
provided admin signer's key is 3, so the call fails and the persisted state
is unchanged. -/
theorem claim_C4_witness :
    (process_avs_add_vault_slasher
        ⟨true, true, 7, true, true, 2, 9, ⟨3, true, false⟩, ⟨6, true, true⟩,
          true, 10, true⟩ 4
        ⟨⟨[⟨2, 0, none⟩]⟩, ⟨[]⟩, 1⟩).snd = ⟨⟨[⟨2, 0, none⟩]⟩, ⟨[]⟩, 1⟩ :=
  (claim_C4_unauthorized_fails.1
    ⟨true, true, 7, true, true, 2, 9, ⟨3, true, false⟩, ⟨6, true, true⟩,
      true, 10, true⟩ 4
    ⟨⟨[⟨2, 0, none⟩]⟩, ⟨[]⟩, 1⟩ (by decide)).2

/-- Claim C5: when a relationship list is at full capacity, an add first
requests additional capacity from the storage-growth collaborator; if the
request is denied, the operation fails with `capacityExceeded` and the
persisted list — in particular its entry count — is unchanged. -/
theorem claim_C5_capacity_denied :
    (∀ (a : VaultAddAvsAccounts) (st : VaultAvsListState),
      vault_add_avs_sanitize_ok a = true →
      a.config_restaking_program_signer = a.restaking_program_signer.key →
      st.list.contains_avs a.avs.key = false →
      st.list.entries.length = st.capacity →
      a.growthGranted = false →
      process_vault_add_avs a st =
        (Except.error ProgramError.capacityExceeded, st)) ∧
    (∀ (a : AvsAddSlasherAccounts) (m : Nat) (st : AvsAddSlasherState),
      avs_add_slasher_sanitize_ok a = true →
      a.avsAdmin = a.admin.key →
      st.avsVaultList.contains_vault a.vaultKey = true →
      st.slasherList.contains_slasher a.vaultKey a.slasherKey = false →
      st.slasherList.entries.length = st.slasherCapacity →
      a.growthGranted = false →
      process_avs_add_vault_slasher a m st =
        (Except.error ProgramError.capacityExceeded, st)) := by
  constructor
  · intro a st hok heq hdup hlen hg
    have hfe : vault_add_avs_first_error a = none :=
      (vault_fe_none_iff a).mpr ⟨hok, heq⟩
    rw [process_vault_add_avs_eq_checks a st hfe, if_neg (by simp [hdup]), hg]
    exact save_with_realloc_denied _ _
      (by simp only [List.length_append, List.length_singleton, hlen]; omega)
  · intro a m st hok heq hv hdup hlen hg
    have hfe : avs_add_slasher_first_error a st = none :=
      (slasher_fe_none_iff a st).mpr ⟨hok, heq, hv⟩
    rw [process_avs_add_vault_slasher_eq_checks a m st hfe,
      if_neg (by simp [hdup]), hg]
    exact save_slasher_denied _ _
      (by simp only [List.length_append, List.length_singleton, hlen]; omega)

/-- Witness for C5 at a concrete input: the vault AVS list holds one entry
and its allocation holds exactly one entry, the growth request is denied, and
the add of a fresh AVS fails with `capacityExceeded`, state unchanged. -/
theorem claim_C5_witness :
    process_vault_add_avs
        ⟨⟨1, true, false⟩, ⟨5, true, false⟩, 2, true, 1, true, true,
          ⟨6, true, true⟩, true, 10, false⟩
        ⟨⟨[⟨3, 0, none⟩]⟩, 1⟩ =
      (Except.error ProgramError.capacityExceeded, ⟨⟨[⟨3, 0, none⟩]⟩, 1⟩) :=
  claim_C5_capacity_denied.1
    ⟨⟨1, true, false⟩, ⟨5, true, false⟩, 2, true, 1, true, true,
      ⟨6, true, true⟩, true, 10, false⟩
    ⟨⟨[⟨3, 0, none⟩]⟩, 1⟩ (by decide) (by decide) (by decide) (by decide)
    (by decide)

/-- Counterexample for C6: in `process_avs_add_vault_slasher` the
admin-mismatch (unauthorized) failure and the duplicate-relationship failure
return the same error value `invalidAccountData` — the two failures are not
distinguishable error results, refuting the claim for this processor.  The
first run fails only the admin check (stored admin 7, provided admin 3); the
second run passes all checks but the (2, 9) cap already exists. -/
theorem claim_C6_counterexample :
    (process_avs_add_vault_slasher
        ⟨true, true, 7, true, true, 2, 9, ⟨3, true, false⟩, ⟨6, true, true⟩,
          true, 10, true⟩ 4
        ⟨⟨[⟨2, 0, none⟩]⟩, ⟨[]⟩, 1⟩).fst =
      Except.error ProgramError.invalidAccountData ∧
    (process_avs_add_vault_slasher
        ⟨true, true, 5, true, true, 2, 9, ⟨5, true, false⟩, ⟨6, true, true⟩,
          true, 10, true⟩ 4
        ⟨⟨[⟨2, 0, none⟩]⟩, ⟨[⟨2, 9, 0, 4⟩]⟩, 1⟩).fst =
      Except.error ProgramError.invalidAccountData :=
  ⟨rfl, rfl⟩

/-- Claim C6 (amended): in `process_vault_add_avs` the unauthorized failure
(`invalidAccountData`) and the duplicate failure (`invalidArgument`) are
distinguishable error values; in `process_avs_add_vault_slasher` both the
admin-mismatch failure and the duplicate failure surface as the same
`invalidAccountData`, distinguishable only by their log messages. -/
theorem claim_C6_amended_error_values :
    (∀ (a : VaultAddAvsAccounts) (st : VaultAvsListState),
      vault_add_avs_sanitize_ok a = true →
      a.config_restaking_program_signer ≠ a.restaking_program_signer.key →
      (process_vault_add_avs a st).fst =
        Except.error ProgramError.invalidAccountData) ∧
    (∀ (a : VaultAddAvsAccounts) (st : VaultAvsListState),
      vault_add_avs_sanitize_ok a = true →
      a.config_restaking_program_signer = a.restaking_program_signer.key →
      st.list.contains_avs a.avs.key = true →
      (process_vault_add_avs a st).fst =
        Except.error ProgramError.invalidArgument) ∧
    ProgramError.invalidAccountData ≠ ProgramError.invalidArgument ∧
    (∀ (a : AvsAddSlasherAccounts) (m : Nat) (st : AvsAddSlasherState),
      avs_add_slasher_sanitize_ok a = true →
      a.avsAdmin ≠ a.admin.key →
      (process_avs_add_vault_slasher a m st).fst =
        Except.error ProgramError.invalidAccountData) ∧
    (∀ (a : AvsAddSlasherAccounts) (m : Nat) (st : AvsAddSlasherState),
      avs_add_slasher_sanitize_ok a = true →
      a.avsAdmin = a.admin.key →
      st.avsVaultList.contains_vault a.vaultKey = true →
      st.slasherList.contains_slasher a.vaultKey a.slasherKey = true →
      (process_avs_add_vault_slasher a m st).fst =
        Except.error ProgramError.invalidAccountData) := by
  refine ⟨?_, ?_, by decide, ?_, ?_⟩
  · intro a st hok hne
    rw [process_vault_add_avs_eq_err a st _ (vault_fe_mismatch a hok hne)]
  · intro a st hok heq hdup
    have hfe : vault_add_avs_first_error a = none :=
      (vault_fe_none_iff a).mpr ⟨hok, heq⟩
    rw [process_vault_add_avs_eq_checks a st hfe, if_pos hdup]
  · intro a m st hok hne
    rw [process_avs_add_vault_slasher_eq_err a m st _
      (slasher_fe_admin_mismatch a st hok hne)]
  · intro a m st hok heq hv hdup
    have hfe : avs_add_slasher_first_error a st = none :=
      (slasher_fe_none_iff a st).mpr ⟨hok, heq, hv⟩
    rw [process_avs_add_vault_slasher_eq_checks a m st hfe, if_pos hdup]

/-- Witness for the amended C6 at a concrete input: a duplicate add on the
vault side fails with `invalidArgument`, the value distinct from the
`invalidAccountData` of the unauthorized failure. -/
theorem claim_C6_witness :
    (process_vault_add_avs
        ⟨⟨1, true, false⟩, ⟨5, true, false⟩, 2, true, 1, true, true,
          ⟨6, true, true⟩, true, 10, true⟩
        ⟨⟨[⟨5, 3, none⟩]⟩, 1⟩).fst =
      Except.error ProgramError.invalidArgument :=
  claim_C6_amended_error_values.2.1
    ⟨⟨1, true, false⟩, ⟨5, true, false⟩, 2, true, 1, true, true,
      ⟨6, true, true⟩, true, 10, true⟩
    ⟨⟨[⟨5, 3, none⟩]⟩, 1⟩ (by decide) (by decide) (by decide)

/-- Claim C7: `process_avs_add_vault_slasher` consults the sibling AVS vault
list only through the read-only `contains_vault` query — on every execution,
success or failure, the AVS vault list in the resulting state is unchanged;
the only list the operation mutates is the AVS slasher list it owns. -/
theorem claim_C7_vault_list_read_only :
    ∀ (a : AvsAddSlasherAccounts) (m : Nat) (st : AvsAddSlasherState),
      ((process_avs_add_vault_slasher a m st).snd).avsVaultList =
        st.avsVaultList := by
  intro a m st
  rcases hfe : avs_add_slasher_first_error a st with _ | e2
  · rw [process_avs_add_vault_slasher_eq_checks a m st hfe]
    by_cases hdup :
      st.slasherList.contains_slasher a.vaultKey a.slasherKey = true
    · rw [if_pos hdup]
    · rw [if_neg hdup]
      exact save_slasher_vault_list _ _ _
  · rw [process_avs_add_vault_slasher_eq_err a m st e2 hfe]

/-- Claim C8: on every successful add, the newly appended entry records the
current clock slot as its creation height — `process_vault_add_avs` appends
an active entry whose `added_at` is the execution slot, and
`process_avs_add_vault_slasher` appends a cap record whose `added_at` is the
execution slot. -/
theorem claim_C8_added_at_now :
    (∀ (a : VaultAddAvsAccounts) (st : VaultAvsListState),
      (process_vault_add_avs a st).fst = Except.ok () →
      ((process_vault_add_avs a st).snd).list.entries =
        st.list.entries ++ [⟨a.avs.key, a.slot, none⟩]) ∧
    (∀ (a : AvsAddSlasherAccounts) (m : Nat) (st : AvsAddSlasherState),
      (process_avs_add_vault_slasher a m st).fst = Except.ok () →
      ((process_avs_add_vault_slasher a m st).snd).slasherList.entries =
        st.slasherList.entries ++ [⟨a.vaultKey, a.slasherKey, a.slot, m⟩]) :=
  ⟨fun a st h => (vault_add_avs_ok_inv a st h).2,
    fun a m st h => (avs_add_slasher_ok_inv a m st h).2.2⟩

/-- Witness for C8 at a concrete successful add executed in slot 10: the
appended entry's `added_at` is 10. -/
theorem claim_C8_witness :
    ((process_vault_add_avs
        ⟨⟨1, true, false⟩, ⟨5, true, false⟩, 2, true, 1, true, true,
          ⟨6, true, true⟩, true, 10, true⟩
        ⟨⟨[]⟩, 1⟩).snd).list.entries = [⟨5, 10, none⟩] :=
  claim_C8_added_at_now.1
    ⟨⟨1, true, false⟩, ⟨5, true, false⟩, 2, true, 1, true, true,
      ⟨6, true, true⟩, true, 10, true⟩
    ⟨⟨[]⟩, 1⟩ rfl

/-- Claim C9: `SanitizedTokenAccount::sanitize` returns Ok iff the data
length equals the SPL token account length, the owning program is the SPL
token program, the data unpacks, and the unpacked mint and owner match the
expected ones; on success it returns exactly the unpacked account; a wrong
owning program (with correct length) yields `illegalOwner`, while length,
mint, and owner mismatches yield `invalidAccountData`. -/
theorem claim_C9_token_sanitize :
    ∀ (unpack : List Nat → Except ProgramError SplAccount)
      (account : TokenAccountInfo) (mint owner : Pubkey),
      ((∃ tok, sanitize_token_account unpack account mint owner =
          Except.ok tok) ↔
        (account.dataLen = ACCOUNT_LEN ∧ account.ownerProgram = spl_token_id ∧
          ∃ tok, unpack account.data = Except.ok tok ∧ tok.mint = mint ∧
            tok.owner = owner)) ∧
      (∀ tok, account.dataLen = ACCOUNT_LEN →
        account.ownerProgram = spl_token_id →
        unpack account.data = Except.ok tok → tok.mint = mint →
        tok.owner = owner →
        sanitize_token_account unpack account mint owner = Except.ok tok) ∧
      (account.dataLen ≠ ACCOUNT_LEN →
        sanitize_token_account unpack account mint owner =
          Except.error ProgramError.invalidAccountData) ∧
      (account.dataLen = ACCOUNT_LEN → account.ownerProgram ≠ spl_token_id →
        sanitize_token_account unpack account mint owner =
          Except.error ProgramError.illegalOwner) ∧
      (∀ tok, account.dataLen = ACCOUNT_LEN →
        account.ownerProgram = spl_token_id →
        unpack account.data = Except.ok tok →
        (tok.mint ≠ mint ∨ tok.owner ≠ owner) →
        sanitize_token_account unpack account mint owner =
          Except.error ProgramError.invalidAccountData) := by
  intro unpack account mint owner
  have hsucc : ∀ tok, account.dataLen = ACCOUNT_LEN →
      account.ownerProgram = spl_token_id →
      unpack account.data = Except.ok tok → tok.mint = mint →
      tok.owner = owner →
      sanitize_token_account unpack account mint owner = Except.ok tok := by
    intro tok h1 h2 h3 h4 h5
    unfold sanitize_token_account
    rw [if_neg (by simp [h1]), if_neg (by simp [h2]), h3]
    simp [h4, h5]
  refine ⟨⟨?_, ?_⟩, hsucc, ?_, ?_, ?_⟩
  · rintro ⟨tok, htok⟩
    unfold sanitize_token_account at htok
    by_cases h1 : account.dataLen ≠ ACCOUNT_LEN
    · rw [if_pos h1] at htok
      exact absurd htok (by simp)
    · rw [if_neg h1] at htok
      by_cases h2 : account.ownerProgram ≠ spl_token_id
      · rw [if_pos h2] at htok
        exact absurd htok (by simp)
      · rw [if_neg h2] at htok
        rcases hu : unpack account.data with e | tok2
        · rw [hu] at htok
          exact absurd htok (by simp)
        · rw [hu] at htok
          by_cases hm : tok2.mint = mint
          · by_cases ho : tok2.owner = owner
            · exact ⟨not_not.mp h1, not_not.mp h2, tok2, rfl, hm, ho⟩
            · simp [hm, ho] at htok
          · simp [hm] at htok
  · rintro ⟨h1, h2, tok, hu, hm, ho⟩
    exact ⟨tok, hsucc tok h1 h2 hu hm ho⟩
  · intro hne
    unfold sanitize_token_account
    rw [if_pos hne]
  · intro h1 hne
    unfold sanitize_token_account
    rw [if_neg (by simp [h1]), if_pos hne]
  · intro tok h1 h2 h3 hdisj
    unfold sanitize_token_account
    rw [if_neg (by simp [h1]), if_neg (by simp [h2]), h3]
    rcases hdisj with hm | ho
    · simp [hm]
    · by_cases hm2 : tok.mint = mint
      · simp [hm2, ho]
      · simp [hm2]

/-- Witness for C9 at a concrete input: an account of length 165 owned by the
SPL token program whose data unpacks to mint 1 and owner 2 sanitizes
successfully to exactly the unpacked account. -/
theorem claim_C9_witness :
    sanitize_token_account (fun _ => Except.ok ⟨1, 2, 50⟩)
      ⟨9, spl_token_id, 165, []⟩ 1 2 = Except.ok ⟨1, 2, 50⟩ :=
  (claim_C9_token_sanitize (fun _ => Except.ok ⟨1, 2, 50⟩)
    ⟨9, spl_token_id, 165, []⟩ 1 2).2.1 ⟨1, 2, 50⟩ rfl rfl rfl rfl rfl

/-- Counterexample for C10: four of the vault SDK builders disagree with the
`#[account]` lists declared on their `VaultInstruction` variants —
`initialize_config` marks the declared-readonly `restaking_program_signer`
writable, `initialize_vault` marks the declared-readonly `token_mint` and
`base` writable, `remove_avs` passes seven accounts while the `RemoveAvs`
variant declares five, and `set_capacity` marks the declared-readonly
`admin` writable — each shown at explicit concrete inputs. -/
theorem claim_C10_counterexample :
    ¬ ((initialize_config 1 2 3 4 5).accounts.map meta_flags =
        required_declared VaultInstruction.initializeConfig) ∧
    ¬ ((initialize_vault 1 2 3 4 5 6 7 8 9 10 0 0).accounts.map meta_flags =
        required_declared (VaultInstruction.initializeVault 0 0)) ∧
    ¬ ((remove_avs 1 2 3 4 5 6 7).accounts.map meta_flags =
        required_declared VaultInstruction.removeAvs) ∧
    ¬ ((set_capacity 1 2 3 0).accounts.map meta_flags =
        required_declared (VaultInstruction.setDepositCapacity 0)) := by
  decide

/-- Claim C10 (amended): every vault SDK builder returns an Instruction whose
`program_id` is the given program id and whose data is the Borsh
serialization of the corresponding `VaultInstruction` variant; the builders
`add_avs`, `add_operator`, `remove_operator`, `mint_to` (with the optional
`mint_signer` omitted), `add_delegation`, and `remove_delegation` also match,
in order, count, writability, and signer flags, the account lists declared on
their variants, while `initialize_config`, `initialize_vault`, and
`set_capacity` mark some declared-readonly accounts writable
(`restaking_program_signer`; `token_mint` and `base`; `admin`) and
`remove_avs` appends `payer` and `system_program` accounts not declared on
the `RemoveAvs` variant. -/
theorem claim_C10_amended_builders :
    ∀ (pid k1 k2 k3 k4 k5 k6 k7 k8 k9 : Pubkey) (amount d w : Nat),
      builder_ok (initialize_config pid k1 k2 k3 k4) pid
        VaultInstruction.initializeConfig ∧
      builder_ok (initialize_vault pid k1 k2 k3 k4 k5 k6 k7 k8 k9 d w) pid
        (VaultInstruction.initializeVault d w) ∧
      builder_ok (add_avs pid k1 k2 k3 k4 k5 k6) pid
        VaultInstruction.addAvs ∧
      builder_ok (remove_avs pid k1 k2 k3 k4 k5 k6) pid
        VaultInstruction.removeAvs ∧
      builder_ok (add_operator pid k1 k2 k3 k4 k5 k6) pid
        VaultInstruction.addOperator ∧
      builder_ok (remove_operator pid k1 k2 k3 k4 k5 k6) pid
        VaultInstruction.removeOperator ∧
      builder_ok (mint_to pid k1 k2 k3 k4 k5 k6 amount) pid
        (VaultInstruction.mintTo amount) ∧
      builder_ok (set_capacity pid k1 k2 amount) pid
        (VaultInstruction.setDepositCapacity amount) ∧
      builder_ok (add_delegation pid k1 k2 k3 k4 k5 k6 amount) pid
        (VaultInstruction.addDelegation amount) ∧
      builder_ok (remove_delegation pid k1 k2 k3 k4 k5 k6 amount) pid
        (VaultInstruction.removeDelegation amount) ∧
      metas_match (add_avs pid k1 k2 k3 k4 k5 k6) VaultInstruction.addAvs ∧
      metas_match (add_operator pid k1 k2 k3 k4 k5 k6)
        VaultInstruction.addOperator ∧
      metas_match (remove_operator pid k1 k2 k3 k4 k5 k6)
        VaultInstruction.removeOperator ∧
      metas_match (mint_to pid k1 k2 k3 k4 k5 k6 amount)
        (VaultInstruction.mintTo amount) ∧
      metas_match (add_delegation pid k1 k2 k3 k4 k5 k6 amount)
        (VaultInstruction.addDelegation amount) ∧
      metas_match (remove_delegation pid k1 k2 k3 k4 k5 k6 amount)
        (VaultInstruction.removeDelegation amount) ∧
      (initialize_config pid k1 k2 k3 k4).accounts.map meta_flags =
        [(true, false), (true, true), (true, false), (false, false),
          (false, false)] ∧
      required_declared VaultInstruction.initializeConfig =
        [(true, false), (true, true), (false, false), (false, false),
          (false, false)] ∧
      (initialize_vault pid k1 k2 k3 k4 k5 k6 k7 k8 k9 d w).accounts.map
          meta_flags =
        [(true, false), (true, false), (true, false), (true, false),
          (true, false), (true, true), (true, false), (true, true),
          (true, true), (false, false), (false, false)] ∧
      required_declared (VaultInstruction.initializeVault d w) =
        [(true, false), (true, false), (true, false), (true, false),
          (true, false), (true, true), (false, false), (true, true),
          (false, true), (false, false), (false, false)] ∧
      (remove_avs pid k1 k2 k3 k4 k5 k6).accounts.map meta_flags =
        [(false, true), (false, true), (false, false), (false, false),
          (true, false), (true, true), (false, false)] ∧
      required_declared VaultInstruction.removeAvs =
        [(false, true), (false, true), (false, false), (false, false),
          (true, false)] ∧
      (set_capacity pid k1 k2 amount).accounts.map meta_flags =
        [(true, false), (true, true)] ∧
      required_declared (VaultInstruction.setDepositCapacity amount) =
        [(true, false), (false, true)] := by
  intro pid k1 k2 k3 k4 k5 k6 k7 k8 k9 amount d w
  exact ⟨⟨rfl, rfl⟩, ⟨rfl, rfl⟩, ⟨rfl, rfl⟩, ⟨rfl, rfl⟩, ⟨rfl, rfl⟩,
    ⟨rfl, rfl⟩, ⟨rfl, rfl⟩, ⟨rfl, rfl⟩, ⟨rfl, rfl⟩, ⟨rfl, rfl⟩, rfl, rfl,
    rfl, rfl, rfl, rfl, rfl, rfl, rfl, rfl, rfl, rfl, rfl, rfl⟩
